import Mathlib

/-!
Verification of the alist web-api client wrapper
(`alist/component/client.py`) against its natural-language specification.

The Python source is shallowly embedded: the module-level response
validator `check_response`'s inner `check_code`, the session/auth
manager (`login`, `__setattr__`, the cached `base_path` property) and
the ranged reader (`read_bytes`, `read_bytes_range`, `read_block`,
`get_url`) become pure Lean functions.  Network effects are made
explicit: each server response a call would receive is a parameter,
and every outcome records the list of HTTP requests issued (with the
headers the claims talk about) and how often the probe response was
closed.  The synchronous execution mode is modelled; the generator
runner `run_gen_step` merely sequences the yielded steps in that mode.
-/

namespace AlistClientSpec

/-! ### errno constants used by the source -/

def EPERM : Int := 1
def ENOENT : Int := 2
def EIO : Int := 5
def EACCES : Int := 13
def EEXIST : Int := 17
def ENOTDIR : Int := 20
def EINVAL : Int := 22
def ESPIPE : Int := 29

/-! ### Response envelopes and the validator `check_response` -/

/-- The decoded response envelope `\x7bcode, message, data\x7d`; only the
`code` and `message` fields are inspected by the validator, so `data`
is omitted from the embedding. -/
structure Envelope where
  code : Int
  message : String
  deriving DecidableEq, Repr

/-- The Python exception raised by `check_code`, with its errno and the
envelope it carries. -/
inductive CheckError where
  | permissionError (eno : Int) (resp : Envelope)
  | fileNotFoundError (eno : Int) (resp : Envelope)
  | notADirectoryError (eno : Int) (resp : Envelope)
  | fileExistsError (eno : Int) (resp : Envelope)
  | osError (eno : Int) (resp : Envelope)
  deriving DecidableEq, Repr

/-- Embedding of the inner `check_code` of `check_response`
(client.py lines 64-83).  In the source, a `code == 500` envelope whose
message matches none of the four message patterns falls out of the
`elif` chain and reaches the final `raise OSError(errno.EIO, resp)`,
exactly like any other non-success code. -/
def check_code (resp : Envelope) : Except CheckError Envelope :=
  if 200 ≤ resp.code ∧ resp.code < 300 then
    .ok resp
  else if resp.code = 403 then
    .error (.permissionError EACCES resp)
  else if resp.code = 500 then
    if resp.message.endsWith "object not found"
        || resp.message.startsWith "failed get storage: storage not found" then
      .error (.fileNotFoundError ENOENT resp)
    else if resp.message.endsWith "not a folder" then
      .error (.notADirectoryError ENOTDIR resp)
    else if resp.message.endsWith "file exists" then
      .error (.fileExistsError EEXIST resp)
    else if resp.message.startsWith "failed get " then
      .error (.permissionError EPERM resp)
    else
      .error (.osError EIO resp)
  else
    .error (.osError EIO resp)

/-- The failure-kind table exactly as the specification states it: a
flat first-match-wins list of rules, the code checked first and then
the message prefix/suffix, with a generic catch-all carrying the full
envelope.  This definition follows the spec's wording, to be compared
with the nested `check_code` taken from the source. -/
def specFailureKind (resp : Envelope) : CheckError :=
  if resp.code = 403 then
    .permissionError EACCES resp
  else if resp.code = 500 ∧
      (resp.message.endsWith "object not found"
        || resp.message.startsWith "failed get storage: storage not found") = true then
    .fileNotFoundError ENOENT resp
  else if resp.code = 500 ∧ resp.message.endsWith "not a folder" = true then
    .notADirectoryError ENOTDIR resp
  else if resp.code = 500 ∧ resp.message.endsWith "file exists" = true then
    .fileExistsError EEXIST resp
  else if resp.code = 500 ∧ resp.message.startsWith "failed get " = true then
    .permissionError EPERM resp
  else
    .osError EIO resp

/-! ### The ranged reader `read_bytes` / `read_bytes_range` / `read_block` -/

/-- Python exception values that the ranged reader and the session
manager can raise.  `nameError` models the lookup of an undefined
global, `typeError` an unsupported operation, `osError` an
`OSError(errno, message)`, and `osErrorResp` an `OSError(errno, resp)`
carrying a response envelope (as `login` raises on a rejected
credential). -/
inductive PyExc where
  | nameError (name : String)
  | typeError (msg : String)
  | osError (eno : Int) (msg : String)
  | osErrorResp (eno : Int) (code : Int) (token : String)
  deriving DecidableEq, Repr

/-- Decidable equality for `Except`, needed so that ranged-reader
outcomes can be compared by evaluation in closed theorems. -/
instance instDecidableEqExcept {ε α : Type} [DecidableEq ε] [DecidableEq α] :
    DecidableEq (Except ε α)
  | .ok a, .ok b =>
    if h : a = b then .isTrue (by rw [h])
    else .isFalse (fun hh => by cases hh; exact h rfl)
  | .ok _, .error _ => .isFalse (fun hh => by cases hh)
  | .error _, .ok _ => .isFalse (fun hh => by cases hh)
  | .error a, .error b =>
    if h : a = b then .isTrue (by rw [h])
    else .isFalse (fun hh => by cases hh; exact h rfl)

/-- An HTTP request as the ranged reader issues it: the url, the value
of the `Range` header, and the value of the `Accept-Encoding` header.
Both the length probe and the ranged data request set exactly these
two headers (client.py lines 2640-2643 and 2723-2727). -/
structure HttpRequest where
  url : String
  rangeHeader : String
  acceptEncoding : String
  deriving DecidableEq, Repr

/-- The length-probe request: `Range: bytes=-1`,
`Accept-Encoding: identity`. -/
def probeReq (url : String) : HttpRequest :=
  ⟨url, "bytes=-1", "identity"⟩

/-- The ranged data request issued by `read_bytes_range`:
`Range: bytes=\x7bbytes_range\x7d`, `Accept-Encoding: identity`. -/
def rangedReq (url bytes_range : String) : HttpRequest :=
  ⟨url, "bytes=" ++ bytes_range, "identity"⟩

/-- Pythonic truthiness of `stop and stop < 0` in
`if start < 0 or (stop and stop < 0)` (client.py line 2637): `None`
and `0` are falsy, so the conjunct holds exactly when `stop` is a
negative integer. -/
def stopNeg : Option Int → Bool
  | none => false
  | some s => decide (s < 0)

/-- The module imports `get_content_length` from `http_response`
(client.py line 37) but never uses it; the probe branch instead calls
the global name `get_total_length` (line 2649), which is defined
nowhere in the module, so evaluating it raises
`NameError: name get_total_length is not defined` before the probe
response is inspected. -/
def get_total_length_lookup : Except PyExc Int :=
  .error (.nameError "get_total_length")

/-- Outcome of one `get_bytes_range` evaluation: the computed range
string (`none` models Python returning `None` for an empty window),
or the exception raised; the probe requests issued; and how many
times the probe response was closed (the `finally` block closes it on
every path through the `try`). -/
structure RangeOutcome where
  result : Except PyExc (Option String)
  requests : List HttpRequest
  probeCloses : Nat
  deriving DecidableEq, Repr

/-- Embedding of the inner `get_bytes_range(start, stop)` of
`read_bytes` (client.py lines 2636-2670), synchronous mode, no extra
request headers.  Two behaviours of the source are preserved exactly:

* In the probe branch the first statement of the `try` evaluates the
  undefined global `get_total_length`, so a `NameError` is raised and
  the `finally` closes the probe response; the normalization code
  below it (kept here under the unreachable `.ok` case, transliterated
  from the source) never runs.
* The early return for `stop is None` exists only inside the probe
  branch, so when `start >= 0` and `stop is None` control reaches
  `if start >= stop`, which compares an int with `None` and raises a
  `TypeError`. -/
def get_bytes_range (url : String) (start : Int) (stop : Option Int) :
    RangeOutcome :=
  if start < 0 ∨ stopNeg stop = true then
    match get_total_length_lookup with
    | .error e => ⟨.error e, [probeReq url], 1⟩
    | .ok length =>
      let start := if start < 0 then start + length else start
      let start := if start < 0 then 0 else start
      match stop with
      | none => ⟨.ok (some (toString start ++ "-")), [probeReq url], 1⟩
      | some stop =>
        let stop := if stop < 0 then stop + length else stop
        if start ≥ stop then
          ⟨.ok none, [probeReq url], 1⟩
        else
          ⟨.ok (some (toString start ++ "-" ++ toString (stop - 1))),
            [probeReq url], 1⟩
  else
    match stop with
    | none =>
      ⟨.error (.typeError "unsupported comparison: int >= NoneType"), [], 0⟩
    | some stop =>
      if start ≥ stop then
        ⟨.ok none, [], 0⟩
      else
        ⟨.ok (some (toString start ++ "-" ++ toString (stop - 1))), [], 0⟩

/-- Outcome of a `read_bytes` / `read_block` call: the returned bytes
or the exception raised, the requests issued in order (probe first
when present, then the ranged data request), and the number of probe
closes. -/
structure ReadOutcome where
  result : Except PyExc (List UInt8)
  requests : List HttpRequest
  probeCloses : Nat
  deriving DecidableEq, Repr

/-- Embedding of `read_bytes(url, start, stop)` (client.py lines
2618-2678), synchronous mode.  `serve` is the environment: the body
the server returns for a ranged data request.  A falsy range
(`None`) short-circuits to `b""`; otherwise `read_bytes_range` issues
the single data request with `Range: bytes=\x7brange\x7d` and
`Accept-Encoding: identity` and the raw body is returned. -/
def read_bytes (url : String) (start : Int) (stop : Option Int)
    (serve : HttpRequest → List UInt8) : ReadOutcome :=
  match get_bytes_range url start stop with
  | ⟨.error e, reqs, closes⟩ => ⟨.error e, reqs, closes⟩
  | ⟨.ok none, reqs, closes⟩ => ⟨.ok [], reqs, closes⟩
  | ⟨.ok (some r), reqs, closes⟩ =>
    ⟨.ok (serve (rangedReq url r)), reqs ++ [rangedReq url r], closes⟩

/-- Embedding of `read_block(url, size, offset)` (client.py lines
2753-2783), synchronous mode: `size <= 0` short-circuits to `b""`
with no request of any kind, otherwise it delegates to
`read_bytes(url, start=offset, stop=offset+size)`. -/
def read_block (url : String) (size offset : Int)
    (serve : HttpRequest → List UInt8) : ReadOutcome :=
  if size ≤ 0 then
    ⟨.ok [], [], 0⟩
  else
    read_bytes url offset (some (offset + size)) serve

/-- A concrete server used by closed evaluations: every ranged
request is answered with the single byte 42. -/
def serveConst : HttpRequest → List UInt8 := fun _ => [42]

/-! ### Session/auth manager: `login`, `__setattr__`, cached `base_path` -/

/-- The mutable state of an `AlistClient` instance that the session
manager touches: the three credential strings, the `Authorization`
entry of the shared headers, and the `cached_property` slot for
`base_path` (`none` when the cache is absent, i.e. invalidated). -/
structure ClientState where
  username : String
  password : String
  otp_code : String
  authorization : Option String
  base_path : Option String
  deriving DecidableEq, Repr

/-- The login response envelope: its `code` and the `data.token`
field the source stores on success. -/
structure AuthResp where
  code : Int
  token : String
  deriving DecidableEq, Repr

/-- Outcome of a `login` call: the state after the call (credential
updates persist even when the call raises), the exception raised if
any, and the number of HTTP requests issued. -/
structure LoginOutcome where
  state : ClientState
  error : Option PyExc
  requests : Nat
  deriving DecidableEq, Repr

/-- Embedding of `login(username, password, otp_code)` (client.py
lines 250-298), synchronous mode; `resp` is the envelope the login
endpoint would return.  The source first overwrites each stored
credential with any truthy (non-empty) argument, then: with an empty
resulting username it pops the `Authorization` header and the cached
`base_path` without a network call; otherwise it issues one login
request, raises `OSError(errno.EINVAL, resp)` when the code is not in
[200,300) — note that this raise happens BEFORE `ns.pop("base_path")`,
so a failed login leaves the cache in place — and on success stores
`data.token` in the `Authorization` header and then pops the cached
`base_path`.  The `hash_password` flag only changes the transmitted
payload, which no claim observes, so it is not modelled.  The
`gen_step` body, which runs after the credential overwrites on the
already-updated namespace `ns`, is `loginStep`; `login` composes the
overwrites with it. -/
def loginStep (ns : ClientState) (resp : AuthResp) : LoginOutcome :=
  if ns.username = "" then
    ⟨{ ns with authorization := none, base_path := none }, none, 0⟩
  else if 200 ≤ resp.code ∧ resp.code < 300 then
    ⟨{ ns with authorization := some resp.token, base_path := none }, none, 1⟩
  else
    ⟨ns, some (.osErrorResp EINVAL resp.code resp.token), 1⟩

/-- The whole of `login`: the credential overwrites happen before the
`gen_step` body (`loginStep`) runs. -/
def login (st : ClientState) (u p o : String) (resp : AuthResp) :
    LoginOutcome :=
  loginStep
    { st with
      username := if u = "" then st.username else u
      password := if p = "" then st.password else p
      otp_code := if o = "" then st.otp_code else o } resp

/-- The identity-lookup (`/api/me`) response: only its
`data.base_path` field is read by `get_base_path` (client.py lines
314-322, which does not check the code). -/
structure MeResp where
  base_path : String
  deriving DecidableEq, Repr

/-- Outcome of reading the `base_path` property: the value, the state
afterwards, and the number of identity-lookup requests issued. -/
structure AccessOutcome where
  value : String
  state : ClientState
  requests : Nat
  deriving DecidableEq, Repr

/-- Embedding of the `base_path` `cached_property` (client.py lines
164-166): when the cache slot is absent, `get_base_path` issues one
identity-lookup request and the result is stored in the slot;
otherwise the cached value is returned with no request. -/
def base_path_access (st : ClientState) (resp : MeResp) : AccessOutcome :=
  match st.base_path with
  | some v => ⟨v, st, 0⟩
  | none => ⟨resp.base_path, { st with base_path := some resp.base_path }, 1⟩

/-- The `TypeError` raised by `__setattr__`. -/
def cantSet (attr : String) : PyExc :=
  .typeError ("cant set attribute: " ++ attr)

/-- Outcome of an attribute assignment: the state afterwards, the
exception that surfaces (an assignment always raises), and the number
of HTTP requests issued by the triggered re-login, if any. -/
structure SetattrOutcome where
  state : ClientState
  error : PyExc
  requests : Nat
  deriving DecidableEq, Repr

/-- Embedding of `__setattr__(attr, val)` (client.py lines 157-162);
`resp` is the envelope a triggered re-login would receive.  For
`username`, `password` and `otp_code` the stored value is replaced
with `str(val)` first (values are modelled as the strings they are
stored as); for `password` and `otp_code` a full `login()` then runs
on the updated state, and if that login raises, its exception
propagates and the final `raise TypeError(...)` is never reached;
in every other case the `TypeError` surfaces. -/
def setattr_client (st : ClientState) (attr val : String) (resp : AuthResp) :
    SetattrOutcome :=
  if attr = "username" then
    ⟨{ st with username := val }, cantSet attr, 0⟩
  else if attr = "password" then
    let lo := login { st with password := val } "" "" "" resp
    ⟨lo.state, lo.error.getD (cantSet attr), lo.requests⟩
  else if attr = "otp_code" then
    let lo := login { st with otp_code := val } "" "" "" resp
    ⟨lo.state, lo.error.getD (cantSet attr), lo.requests⟩
  else
    ⟨st, cantSet attr, 0⟩

/-! ### `get_url` and percent-encoding -/

/-- One uppercase hex digit. -/
def hexDigit (n : Nat) : Char :=
  if n < 10 then Char.ofNat (48 + n) else Char.ofNat (55 + n)

/-- `%XX` percent-encoding of one byte, uppercase hex, as
`urllib.parse.quote` produces. -/
def pctByte (b : UInt8) : String :=
  "%" ++ String.singleton (hexDigit (b.toNat / 16))
      ++ String.singleton (hexDigit (b.toNat % 16))

/-- The characters `urllib.parse.quote` never encodes: ASCII letters,
digits, and `_.-~`. -/
def isAlwaysSafe (c : Char) : Bool :=
  c.isAlpha || c.isDigit || c = '_' || c = '.' || c = '-' || c = '~'

/-- The `safe` argument the source passes to `quote` (client.py line
2571): the characters of the string "@[]:/!$&()*+,;=" together with
the apostrophe (code point 39). -/
def safeChars : List Char :=
  ['@', '[', ']', ':', '/', '!', '$', '&', Char.ofNat 39,
   '(', ')', '*', '+', ',', ';', '=']

/-- `urllib.parse.quote` on one character: kept literal when in the
always-safe set or in `safe`; otherwise each byte of its UTF-8
encoding is percent-encoded.  (The `safe` set here is ASCII-only, so
the character-wise view coincides with quote's byte-wise one: every
byte of a multi-byte character is >= 0x80 and gets encoded.) -/
def quoteChar (safe : List Char) (c : Char) : String :=
  if isAlwaysSafe c || safe.contains c then String.singleton c
  else String.join ((String.utf8EncodeChar c).map pctByte)

/-- Model of `urllib.parse.quote(s, safe)`. -/
def pyQuote (s : String) (safe : List Char) : String :=
  String.join (s.toList.map (quoteChar safe))

/-- One character of `path.translate(\x7b0x23: "%23", 0x3F: "%3F"\x7d)`
(client.py line 2573): code point 0x23 is the character # and 0x3F is
the character ?; every other character passes through. -/
def pyTranslateChar (c : Char) : String :=
  if c = '#' then "%23" else if c = '?' then "%3F" else String.singleton c

/-- Model of the `str.translate` call of `get_url`. -/
def pyTranslate (s : String) : String :=
  String.join (s.toList.map pyTranslateChar)

/-- Embedding of `get_url(path, ensure_ascii)` (client.py lines
2562-2573) with the client's `origin` and (already computed)
`base_path` as explicit inputs: the base path is prepended only when
it differs from "/", then the prefixed path is either quoted with the
safe set above (`ensure_ascii` true) or passed through the #/?
translation (`ensure_ascii` false). -/
def get_url (origin base_path path : String) (ensure_ascii : Bool) : String :=
  let p := if base_path ≠ "/" then base_path ++ path else path
  if ensure_ascii then origin ++ "/d" ++ pyQuote p safeChars
  else origin ++ "/d" ++ pyTranslate p

/-- The claim's reading of the escape rule for `ensure_ascii = false`:
only # and ? are escaped (to %23 and %3F), every other character
passes through literally.  Written from the specification, to be
compared with the translate-table model from the source. -/
def specEscapeChar (c : Char) : String :=
  if c = '#' then "%23" else if c = '?' then "%3F" else String.singleton c

/-- The prefix rule the code actually implements, as the amended
claim states it: the base path is prepended unless it is "/". -/
def specPrefixed (base_path path : String) : String :=
  if base_path = "/" then path else base_path ++ path

/-! ### Theorems for the validator claims -/

/-- C7: for every envelope with integer code in [200,300), the
validator returns that envelope unchanged, regardless of the message
(the embedding is a pure function, so there is no side effect to
observe). -/
theorem c7_success_returns_envelope_unchanged (resp : Envelope)
    (h₁ : 200 ≤ resp.code) (h₂ : resp.code < 300) :
    check_code resp = .ok resp := by
  unfold check_code
  rw [if_pos ⟨h₁, h₂⟩]

/-- Witness for C7 at the concrete envelope with code 204. -/
theorem c7_success_returns_envelope_unchanged_witness :
    check_code ⟨204, "whatever"⟩ = .ok ⟨204, "whatever"⟩ :=
  c7_success_returns_envelope_unchanged ⟨204, "whatever"⟩ (by decide) (by decide)

/-- C1: for every envelope whose code is outside [200,300), the
validator fails, and the failure kind is the one given by the spec's
first-match-wins table (`specFailureKind`): 403 gives PermissionDenied
(EACCES); 500 with a message ending with "object not found" or
starting with "failed get storage: storage not found" gives NotFound;
500 ending with "not a folder" gives NotADirectory; 500 ending with
"file exists" gives AlreadyExists; 500 starting with "failed get "
(not matched above) gives the operation-level PermissionDenied
(EPERM); every other case gives the generic OSError(EIO) carrying the
full envelope. -/
theorem c1_failure_mapping_first_match_wins (resp : Envelope)
    (h : ¬(200 ≤ resp.code ∧ resp.code < 300)) :
    check_code resp = .error (specFailureKind resp) := by
  unfold check_code specFailureKind
  rw [if_neg h]
  by_cases h403 : resp.code = 403
  · simp [h403]
  · rw [if_neg h403, if_neg h403]
    by_cases h500 : resp.code = 500
    · by_cases m1 : (resp.message.endsWith "object not found"
        || resp.message.startsWith "failed get storage: storage not found") = true
      · simp [h500, m1]
      · by_cases m2 : resp.message.endsWith "not a folder" = true
        · simp [h500, m1, m2]
        · by_cases m3 : resp.message.endsWith "file exists" = true
          · simp [h500, m1, m2, m3]
          · by_cases m4 : resp.message.startsWith "failed get " = true
            · simp [h500, m1, m2, m3, m4]
            · simp [h500, m1, m2, m3, m4]
    · simp [h500]

/-- Witness for C1 at the concrete envelope with code 403. -/
theorem c1_failure_mapping_first_match_wins_witness :
    check_code ⟨403, "anything"⟩ = .error (specFailureKind ⟨403, "anything"⟩) :=
  c1_failure_mapping_first_match_wins ⟨403, "anything"⟩ (by decide)

/-! ### Theorems for the ranged-reader claims -/

/-- C2, evaluated at the failing input: the claim says that with
start = 0 and stop = None exactly one ranged request with header
Range: bytes=0- is issued; the code instead reaches the comparison
of the int start with None (the open-ended early return exists only
inside the negative-bounds probe branch) and raises a TypeError with
no request issued.  The second conjunct checks the half of the claim
the code does satisfy: with start = 3, stop = 7 the single data
request carries Range: bytes=3-6 and Accept-Encoding: identity and
the raw body is returned. -/
theorem c2_open_ended_read_raises_type_error :
    read_bytes "u" 0 none serveConst =
      ⟨.error (.typeError "unsupported comparison: int >= NoneType"), [], 0⟩
    ∧ read_bytes "u" 3 (some 7) serveConst =
      ⟨.ok [42], [rangedReq "u" "3-6"], 0⟩ := by decide

/-- C4, evaluated at the failing input of the claim: with start = -10
and stop = None the probe request (Range: bytes=-1,
Accept-Encoding: identity) is issued, but reading the length
evaluates the undefined global get_total_length and raises a
NameError, so no normalization happens and no ranged data request
follows; the probe response is closed once by the finally block. -/
theorem c4_relative_start_probe_raises_name_error :
    read_bytes "u" (-10) none serveConst =
      ⟨.error (.nameError "get_total_length"), [probeReq "u"], 1⟩ := by decide

/-- C5: whenever the length probe is issued (start < 0, or stop a
negative integer), the probe response is closed exactly once and no
ranged data request is made — but the call fails with the NameError
from the undefined global get_total_length on every such call, never
with the OSError(ESPIPE) range-not-supported condition the claim
describes, because the name lookup precedes any inspection of the
probe response. -/
theorem c5_probe_always_closed_fails_before_length (url : String)
    (start : Int) (stop : Option Int) (serve : HttpRequest → List UInt8)
    (h : start < 0 ∨ stopNeg stop = true) :
    read_bytes url start stop serve =
      ⟨.error (.nameError "get_total_length"), [probeReq url], 1⟩ := by
  unfold read_bytes get_bytes_range get_total_length_lookup
  rw [if_pos h]

/-- Witness for C5 at start = -1, stop = None. -/
theorem c5_probe_always_closed_fails_before_length_witness :
    ((-1 : Int) < 0 ∨ stopNeg none = true) ∧
    read_bytes "u" (-1) none serveConst =
      ⟨.error (.nameError "get_total_length"), [probeReq "u"], 1⟩ :=
  ⟨Or.inl (by decide),
    c5_probe_always_closed_fails_before_length "u" (-1) none serveConst
      (Or.inl (by decide))⟩

/-- C6: for bounds that are both known without a probe (start and
stop nonnegative, normalization leaving them unchanged) with
start >= stop, read_bytes returns empty bytes and issues no request
at all, neither probe nor ranged data request. -/
theorem c6_empty_window_no_request (url : String)
    (serve : HttpRequest → List UInt8) (start stop : Int)
    (h0 : 0 ≤ start) (h1 : 0 ≤ stop) (h2 : stop ≤ start) :
    read_bytes url start (some stop) serve = ⟨.ok [], [], 0⟩ := by
  have hc : ¬(start < 0 ∨ stopNeg (some stop) = true) := by
    simp only [stopNeg, decide_eq_true_eq, not_or, not_lt]
    omega
  have hge : start ≥ stop := h2
  simp [read_bytes, get_bytes_range, hc, hge]

/-- Witness for C6 at start = 5, stop = 3. -/
theorem c6_empty_window_no_request_witness :
    ((0 : Int) ≤ 5 ∧ (0 : Int) ≤ 3 ∧ (3 : Int) ≤ 5) ∧
    read_bytes "u" 5 (some 3) serveConst = ⟨.ok [], [], 0⟩ :=
  ⟨by decide,
    c6_empty_window_no_request "u" serveConst 5 3 (by decide) (by decide)
      (by decide)⟩

/-- C8: read_block with size > 0 returns exactly what
read_bytes(url, start = offset, stop = offset + size) returns (same
bytes, same requests, same closes), and with size <= 0 it
short-circuits to empty bytes with no network request of any kind. -/
theorem c8_read_block_refines_read_bytes (url : String)
    (serve : HttpRequest → List UInt8) (size offset : Int) :
    (0 < size →
      read_block url size offset serve =
        read_bytes url offset (some (offset + size)) serve)
    ∧ (size ≤ 0 → read_block url size offset serve = ⟨.ok [], [], 0⟩) := by
  constructor
  · intro h
    unfold read_block
    rw [if_neg (by omega)]
  · intro h
    unfold read_block
    rw [if_pos h]

/-- Witness for C8 at size = 0, offset = 10. -/
theorem c8_read_block_refines_read_bytes_witness :
    ((0 : Int) ≤ 0) ∧ read_block "u" 0 10 serveConst = ⟨.ok [], [], 0⟩ :=
  ⟨by decide,
    (c8_read_block_refines_read_bytes "u" serveConst 0 10).2 (by decide)⟩

/-! ### Theorems for the session/auth claims -/

/-- Helper: a login that completes without raising leaves the
base_path cache popped. -/
theorem loginStep_error_none_pops_cache (ns : ClientState) (resp : AuthResp)
    (h : (loginStep ns resp).error = none) :
    (loginStep ns resp).state.base_path = none := by
  unfold loginStep at h ⊢
  split_ifs at h ⊢ <;> simp_all

/-- Helper: a login that raises returns the credential-updated state
untouched. -/
theorem loginStep_error_some_state (ns : ClientState) (resp : AuthResp)
    (h : (loginStep ns resp).error ≠ none) :
    loginStep ns resp = ⟨ns, some (.osErrorResp EINVAL resp.code resp.token), 1⟩ := by
  unfold loginStep at h ⊢
  split_ifs at h ⊢ <;> simp_all

/-- Helper: the login body never touches the three credential
fields. -/
theorem loginStep_preserves_credentials (ns : ClientState) (resp : AuthResp) :
    (loginStep ns resp).state.username = ns.username
    ∧ (loginStep ns resp).state.password = ns.password
    ∧ (loginStep ns resp).state.otp_code = ns.otp_code := by
  unfold loginStep
  split_ifs <;> simp

/-- C3 counterexample: a login that replaces the username but is
rejected by the server (code 400) mutates the stored credential and
raises, yet leaves the previously cached base_path in place — the
invalidation the claim requires for a failing credential mutation
does not happen, because the raise precedes the cache pop. -/
theorem c3_failed_login_keeps_cached_base_path :
    (login ⟨"u", "p", "", some "tok", some "/old"⟩ "newuser" "" "" ⟨400, "x"⟩).state.username
      = "newuser"
    ∧ (login ⟨"u", "p", "", some "tok", some "/old"⟩ "newuser" "" "" ⟨400, "x"⟩).error.isSome
      = true
    ∧ (login ⟨"u", "p", "", some "tok", some "/old"⟩ "newuser" "" "" ⟨400, "x"⟩).state.base_path
      = some "/old" := by decide

/-- C3 amended: every login that completes without raising (a
successful authentication or a logout via empty username)
invalidates the cached base_path; a failing login leaves both the
authorization header and the cached base_path unchanged, so the two
stay mutually consistent; a direct assignment to username stores the
value without invalidating the cache; and after an invalidation the
next base_path access issues exactly one identity-lookup request,
whose result is cached so that every further access issues no
request and returns the same value. -/
theorem c3_amended_invalidation_and_caching (st : ClientState)
    (u p o : String) (resp : AuthResp) :
    ((login st u p o resp).error = none →
      (login st u p o resp).state.base_path = none)
    ∧ ((login st u p o resp).error ≠ none →
      (login st u p o resp).state.base_path = st.base_path
      ∧ (login st u p o resp).state.authorization = st.authorization)
    ∧ (∀ v : String,
        (setattr_client st "username" v resp).state.base_path = st.base_path)
    ∧ (∀ st2 : ClientState, ∀ r r2 : MeResp, st2.base_path = none →
        (base_path_access st2 r).requests = 1
        ∧ (base_path_access st2 r).value = r.base_path
        ∧ base_path_access (base_path_access st2 r).state r2
            = ⟨r.base_path, (base_path_access st2 r).state, 0⟩) := by
  refine ⟨?_, ?_, ?_, ?_⟩
  · intro he
    exact loginStep_error_none_pops_cache _ _ he
  · intro he
    unfold login at he ⊢
    rw [loginStep_error_some_state _ _ he]
    exact ⟨rfl, rfl⟩
  · intro v
    simp [setattr_client]
  · intro st2 r r2 h2
    simp [base_path_access, h2]

/-- Witness for C3 amended: a successful login on a state with a
cached base_path invalidates the cache. -/
theorem c3_amended_invalidation_and_caching_witness :
    (login ⟨"u", "p", "", some "t", some "/old"⟩ "v" "" "" ⟨200, "tok"⟩).error = none ∧
    (login ⟨"u", "p", "", some "t", some "/old"⟩ "v" "" "" ⟨200, "tok"⟩).state.base_path = none :=
  ⟨by decide,
    (c3_amended_invalidation_and_caching ⟨"u", "p", "", some "t", some "/old"⟩
      "v" "" "" ⟨200, "tok"⟩).1 (by decide)⟩

/-- C10 counterexample: assigning to password on a client whose
username is nonempty, when the triggered re-login is rejected by the
server, surfaces the login OSError(EINVAL) — not the TypeError the
claim says every assignment raises. -/
theorem c10_failed_relogin_preempts_type_error :
    (setattr_client ⟨"u", "p", "", some "t", some "/bp"⟩ "password" "npw" ⟨500, "x"⟩).error
      ≠ cantSet "password"
    ∧ (setattr_client ⟨"u", "p", "", some "t", some "/bp"⟩ "password" "npw" ⟨500, "x"⟩).error
      = .osErrorResp EINVAL 500 "x" := by decide

/-- C10 amended: every direct attribute assignment raises; for
attributes other than the three credential fields the state is
untouched and the TypeError surfaces with no request; for username
the stored value is replaced and the TypeError surfaces with no
request; for password and otp_code the stored value is replaced and
a full re-login runs on the updated state before any exception
surfaces — the TypeError when that login succeeds, the login failure
itself when it raises. -/
theorem c10_amended_setattr_behaviour (st : ClientState)
    (attr val : String) (resp : AuthResp) :
    (attr ≠ "username" → attr ≠ "password" → attr ≠ "otp_code" →
      setattr_client st attr val resp = ⟨st, cantSet attr, 0⟩)
    ∧ (setattr_client st "username" val resp
        = ⟨{ st with username := val }, cantSet "username", 0⟩)
    ∧ ((setattr_client st "password" val resp).state.password = val
      ∧ (setattr_client st "password" val resp).state
          = (login { st with password := val } "" "" "" resp).state
      ∧ (setattr_client st "password" val resp).requests
          = (login { st with password := val } "" "" "" resp).requests
      ∧ ((login { st with password := val } "" "" "" resp).error = none →
          (setattr_client st "password" val resp).error = cantSet "password")
      ∧ (∀ e : PyExc,
          (login { st with password := val } "" "" "" resp).error = some e →
          (setattr_client st "password" val resp).error = e))
    ∧ ((setattr_client st "otp_code" val resp).state.otp_code = val
      ∧ (setattr_client st "otp_code" val resp).state
          = (login { st with otp_code := val } "" "" "" resp).state
      ∧ ((login { st with otp_code := val } "" "" "" resp).error = none →
          (setattr_client st "otp_code" val resp).error = cantSet "otp_code")
      ∧ (∀ e : PyExc,
          (login { st with otp_code := val } "" "" "" resp).error = some e →
          (setattr_client st "otp_code" val resp).error = e)) := by
  refine ⟨?_, ?_, ⟨?_, ?_, ?_, ?_, ?_⟩, ⟨?_, ?_, ?_, ?_⟩⟩
  · intro h1 h2 h3
    unfold setattr_client
    rw [if_neg h1, if_neg h2, if_neg h3]
  · simp [setattr_client]
  · have hp := (loginStep_preserves_credentials
      { { st with password := val } with
        username := if ("" : String) = "" then ({ st with password := val }).username else ""
        password := if ("" : String) = "" then ({ st with password := val }).password else ""
        otp_code := if ("" : String) = "" then ({ st with password := val }).otp_code else "" }
      resp).2.1
    simp only [setattr_client, login] at hp ⊢
    simp_all
  · simp [setattr_client]
  · simp [setattr_client]
  · intro he
    simp [setattr_client, he]
  · intro e he
    simp [setattr_client, he]
  · have hp := (loginStep_preserves_credentials
      { { st with otp_code := val } with
        username := if ("" : String) = "" then ({ st with otp_code := val }).username else ""
        password := if ("" : String) = "" then ({ st with otp_code := val }).password else ""
        otp_code := if ("" : String) = "" then ({ st with otp_code := val }).otp_code else "" }
      resp).2.2
    simp only [setattr_client, login] at hp ⊢
    simp_all
  · simp [setattr_client]
  · intro he
    simp [setattr_client, he]
  · intro e he
    simp [setattr_client, he]

/-- Witness for C10 amended: assigning an unknown attribute leaves
the state untouched and raises the TypeError with no request. -/
theorem c10_amended_setattr_behaviour_witness :
    setattr_client ⟨"u", "p", "o", some "t", some "/bp"⟩ "color" "red" ⟨200, "k"⟩
      = ⟨⟨"u", "p", "o", some "t", some "/bp"⟩, cantSet "color", 0⟩ :=
  (c10_amended_setattr_behaviour ⟨"u", "p", "o", some "t", some "/bp"⟩
    "color" "red" ⟨200, "k"⟩).1 (by decide) (by decide) (by decide)

/-! ### Theorems for the download-url claim -/

/-- C9 counterexample: when the identity endpoint reports the base
path "/", get_url does not prepend it — the claimed value
origin ++ "/d" ++ (base_path ++ path) (here with ensure_ascii false
and a path that the #/? escaping leaves unchanged) differs from what
the code returns. -/
theorem c9_slash_base_path_not_prepended :
    get_url "http://o" "/" "/a" false = "http://o/d/a"
    ∧ "http://o/d/a"
      ≠ "http://o" ++ "/d"
        ++ String.join ((("/" ++ "/a" : String)).toList.map specEscapeChar) := by
  decide

/-- C9 amended: get_url returns the origin plus "/d" plus the
encoded prefixed path, where the base path is prepended unless it is
"/"; with ensure_ascii true the prefixed path is percent-encoded
byte-wise over UTF-8, keeping unreserved characters and the safe set
of the source literal; with ensure_ascii false each character passes
through literally except # and ?, escaped to %23 and %3F. -/
theorem c9_amended_url_assembly (origin base_path path : String) :
    get_url origin base_path path true
      = origin ++ "/d" ++ pyQuote (specPrefixed base_path path) safeChars
    ∧ get_url origin base_path path false
      = origin ++ "/d"
        ++ String.join ((specPrefixed base_path path).toList.map specEscapeChar) := by
  have hpt : pyTranslateChar = specEscapeChar := rfl
  by_cases h : base_path = "/"
  · simp [get_url, specPrefixed, pyTranslate, hpt, h]
  · simp [get_url, specPrefixed, pyTranslate, hpt, h]

end AlistClientSpec
